import Mathlib

/-
Shallow embedding of the masterking32/python-rtmp-server sources
(`av.py`, `common.py`, `rtmp.py`).  Byte strings are `List Nat` (each
entry 0..255), Python integers are `Nat`/`Int`, Python exceptions are
`Except`, and Python dictionaries are association lists.  Wall-clock
driven behaviour (the 120 s idle purge of partial chunk buffers and the
`tm` field of outbound status messages) is not modelled; nothing below
depends on it.
-/

/- ===================== Part A: Bitop (av.py) ===================== -/

/-- Big-endian MSB-first bit cursor over a byte buffer (`av.py`, class
`Bitop`).  `iserro` is the sticky-per-read error flag of the source. -/
structure Bitop where
  buffer : List Nat
  bufpos : Nat
  bufoff : Nat
  iserro : Bool
deriving DecidableEq

def Bitop.mk0 (buf : List Nat) : Bitop := ⟨buf, 0, 0, false⟩

/-- Transliteration of the while-loop in `Bitop.read`.  The loop consumes
at least one bit of `n` per iteration (the byte offset stays below 8), so
`n` iterations always suffice; the first argument is that structural fuel
and equals the initial `n`. -/
def Bitop.readAux : Nat → Bitop → Nat → Nat → Bitop × Nat
  | 0, b, _, v => (b, v)
  | fuel + 1, b, n, v =>
    if n = 0 then (b, v)
    else if b.buffer.length ≤ b.bufpos then ({ b with iserro := true }, 0)
    else
      let d := if 8 < b.bufoff + n then 8 - b.bufoff else n
      let v' := (v <<< d) + (((b.buffer.getD b.bufpos 0) >>> (8 - b.bufoff - d)) &&& (0xff >>> (8 - d)))
      let off := b.bufoff + d
      let b' := if off = 8 then { b with iserro := false, bufpos := b.bufpos + 1, bufoff := 0 }
                else { b with iserro := false, bufoff := off }
      Bitop.readAux fuel b' (n - d) v'

/-- `Bitop.read(n)`: consume `n` bits MSB-first, returning 0 and setting
the error flag when the cursor passes the end of the buffer. -/
def Bitop.read (b : Bitop) (n : Nat) : Bitop × Nat :=
  Bitop.readAux n b n 0

/-- `Bitop.look(n)`: `read` with the cursor restored afterwards (the
error flag is left as `read` set it, as in the source). -/
def Bitop.look (b : Bitop) (n : Nat) : Bitop × Nat :=
  let r := b.read n
  ({ r.1 with bufpos := b.bufpos, bufoff := b.bufoff }, r.2)

/-- Loop of `Bitop.read_golomb`: counts leading zero bits.  One bit is
consumed per iteration, so `8 * buffer length + 1` iterations of fuel
always suffice. -/
def Bitop.golombAux : Nat → Bitop → Nat → Bitop × Nat
  | 0, b, n => (b, n)
  | fuel + 1, b, n =>
    let r := b.read 1
    if r.2 = 0 ∧ r.1.iserro = false then Bitop.golombAux fuel r.1 (n + 1)
    else (r.1, n)

/-- `Bitop.read_golomb`: Exp-Golomb decoding, `(1 << n) + read(n) - 1`. -/
def Bitop.read_golomb (b : Bitop) : Bitop × Nat :=
  let p := Bitop.golombAux (8 * b.buffer.length + 1) b 0
  let q := p.1.read p.2
  (q.1, (1 <<< p.2) + q.2 - 1)

/- ===================== Part B: AAC parser (av.py) ===================== -/

def AAC_SAMPLE_RATE : List Nat :=
  [96000, 88200, 64000, 48000, 44100, 32000, 24000, 22050, 16000, 12000, 11025, 8000, 7350, 0, 0, 0]

def AAC_CHANNELS : List Nat := [0, 1, 2, 3, 4, 5, 6, 8]

def AUDIO_CODEC_NAME : List String :=
  ["", "ADPCM", "MP3", "LinearLE", "Nellymoser16", "Nellymoser8", "Nellymoser",
   "G711A", "G711U", "", "AAC", "Speex", "", "OPUS", "MP3-8K", "DeviceSpecific", "Uncompressed"]

def AUDIO_SOUND_RATE : List Nat := [5512, 11025, 22050, 44100]

/-- `get_object_type` of `av.py`. -/
def get_object_type (b : Bitop) : Bitop × Nat :=
  let r := b.read 5
  if r.2 = 31 then
    let r2 := r.1.read 6
    (r2.1, r2.2 + 32)
  else (r.1, r.2)

/-- `get_sample_rate` of `av.py`; returns the updated reader, the
sampling index and the sample rate.  The Python `A and B or C` idiom
falls back to the table entry when the 24-bit explicit rate reads as 0. -/
def get_sample_rate (b : Bitop) : Bitop × Nat × Nat :=
  let r := b.read 4
  if r.2 = 0x0f then
    let e := r.1.read 24
    if e.2 ≠ 0 then (e.1, r.2, e.2) else (e.1, r.2, AAC_SAMPLE_RATE.getD r.2 0)
  else (r.1, r.2, AAC_SAMPLE_RATE.getD r.2 0)

/-- Result dictionary of `read_aac_specific_config`.  `channels` is set
only when `chan_config` indexes the `AAC_CHANNELS` table; `sbr` and `ps`
are initialised to −1 as in the source. -/
structure AacInfo where
  object_type : Nat
  sampling_index : Nat
  sample_rate : Nat
  chan_config : Nat
  channels : Option Nat
  sbr : Int
  ps : Int
  ext_object_type : Option Nat
deriving DecidableEq

/-- `read_aac_specific_config` of `av.py`: skip the 16-bit FLV audio-tag
prefix, then parse the AudioSpecificConfig. -/
def read_aac_specific_config (hdr : List Nat) : AacInfo :=
  let b := Bitop.mk0 hdr
  let r0 := b.read 16
  let r1 := get_object_type r0.1
  let r2 := get_sample_rate r1.1
  let r3 := r2.1.read 4
  let chan_config := r3.2
  let channels : Option Nat :=
    if chan_config < AAC_CHANNELS.length then some (AAC_CHANNELS.getD chan_config 0) else none
  if r1.2 = 5 ∨ r1.2 = 29 then
    let ps : Int := if r1.2 = 29 then 1 else -1
    let r4 := get_sample_rate r3.1
    let r5 := get_object_type r4.1
    { object_type := r5.2, sampling_index := r4.2.1, sample_rate := r4.2.2,
      chan_config := chan_config, channels := channels, sbr := 1, ps := ps,
      ext_object_type := some 5 }
  else
    { object_type := r1.2, sampling_index := r2.2.1, sample_rate := r2.2.2,
      chan_config := chan_config, channels := channels, sbr := -1, ps := -1,
      ext_object_type := none }

/-- `get_aac_profile_name` of `av.py`. -/
def get_aac_profile_name (info : AacInfo) : String :=
  if info.object_type = 1 then "Main"
  else if info.object_type = 2 then
    (if info.ps > 0 then "HEv2" else if info.sbr > 0 then "HE" else "LC")
  else if info.object_type = 3 then "SSR"
  else if info.object_type = 4 then "LTP"
  else if info.object_type = 5 then "SBR"
  else ""

/- ===================== Part C: audio handler (rtmp.py) ===================== -/

/-- The fields of `ClientState` touched by `handle_audio_data`. -/
structure AudioState where
  audioCodec : Nat
  audioCodecName : String
  audioSampleRate : Nat
  audioChannels : Nat
  audioProfileName : String
  isFirstAudioReceived : Bool
  aacSequenceHeader : Option (List Nat)
deriving DecidableEq

def initAudioState : AudioState :=
  { audioCodec := 0, audioCodecName := "", audioSampleRate := 0, audioChannels := 1,
    audioProfileName := "", isFirstAudioReceived := false, aacSequenceHeader := none }

/-- `RTMPServer.handle_audio_data` of `rtmp.py`.  A Python `IndexError`
on the payload surfaces as `Except.error` (the session is then torn
down by the caller); the fan-out to players is absent in the source. -/
def handle_audio_data (st : AudioState) (payload : List Nat) : Except Unit AudioState :=
  match payload.get? 0 with
  | none => .error ()
  | some p0 =>
    let sound_format := (p0 >>> 4) &&& 0x0f
    let sound_type := p0 &&& 0x01
    let sound_rate := (p0 >>> 2) &&& 0x03
    let st1 :=
      if st.audioCodec = 0 then
        let sta := { st with audioCodec := sound_format,
                             audioCodecName := AUDIO_CODEC_NAME.getD sound_format "",
                             audioSampleRate := AUDIO_SOUND_RATE.getD sound_rate 0,
                             audioChannels := sound_type + 1 }
        if sound_format = 4 then { sta with audioSampleRate := 16000 }
        else if sound_format = 5 ∨ sound_format = 7 ∨ sound_format = 8 then
          { sta with audioSampleRate := 8000 }
        else if sound_format = 11 then { sta with audioSampleRate := 16000 }
        else if sound_format = 14 then { sta with audioSampleRate := 8000 }
        else sta
      else st
    if sound_format = 10 ∨ sound_format = 13 then
      match payload.get? 1 with
      | none => .error ()
      | some p1 =>
        if p1 = 0 then
          let st2 := { st1 with isFirstAudioReceived := true, aacSequenceHeader := some payload }
          if sound_format = 10 then
            let info := read_aac_specific_config payload
            .ok { st2 with audioProfileName := get_aac_profile_name info,
                           audioSampleRate := info.sample_rate,
                           audioChannels := info.sample_rate }
          else
            match payload.get? 11 with
            | none => .error ()
            | some p11 => .ok { st2 with audioSampleRate := 48000, audioChannels := p11 }
        else .ok st1
    else .ok st1

/- ===================== Part D: AV1 parser (av.py) ===================== -/

/-- Result dictionary of the AV1/HEVC config parsers; `level` is the
Python float ratio, represented exactly as a rational, and
`width`/`height` are `Int` because the Python subtraction of the crop
offsets can go negative. -/
structure VideoCfgInfo where
  width : Int
  height : Int
  profile : Nat
  level : ℚ
deriving DecidableEq

/-- Indexing a Python list/bytes; out of range is `IndexError`. -/
def listIdx (l : List Nat) (i : Nat) : Except String Nat :=
  match l.get? i with
  | some v => .ok v
  | none => .error "IndexError"

/-- One iteration of the operating-points loop of
`read_av1_specific_config`.  `idd_op` mirrors the dictionary entry
`initial_display_delay_present_for_this_op`, which is `none` until the
decoder-model branch first assigns it; reading it while absent is
Python's `KeyError`. -/
def av1OpStep (decoder_model_info_present seq_profile : Nat) (buf : List Nat)
    (idd_op : Option Nat) : Except String (List Nat × Option Nat × VideoCfgInfo) := do
  let _operating_point_idc ← listIdx buf 0
  let seq_level_idx ← listIdx buf 1
  let (buf, idd_op) ←
    if decoder_model_info_present ≠ 0 then do
      let b2 ← listIdx buf 2
      let _seq_tier := b2 >>> 7
      let _decoder_model_present_for_this_op := (b2 >>> 6) &&& 0x01
      pure (buf.drop 3, some ((b2 >>> 5) &&& 0x01))
    else
      pure (buf.drop 2, idd_op)
  let idd ←
    match idd_op with
    | some v => pure v
    | none => Except.error "KeyError"
  let buf ←
    if idd ≠ 0 then do
      let b0 ← listIdx buf 0
      let b1 ← listIdx buf 1
      let b2 ← listIdx buf 2
      let _initial_display_delay_minus_1 := ((b0 &&& 0x3f) <<< 16) ||| (b1 <<< 8) ||| b2
      pure (buf.drop 3)
    else pure buf
  let b0 ← listIdx buf 0
  let b1 ← listIdx buf 1
  let b2 ← listIdx buf 2
  let b3 ← listIdx buf 3
  let b4 ← listIdx buf 4
  let _frame_width_bits_minus_1 := (b0 >>> 4) &&& 0x0f
  let _frame_height_bits_minus_1 := b0 &&& 0x0f
  let max_frame_width_minus_1 := ((b1 &&& 0x7f) <<< 8) ||| b2
  let max_frame_height_minus_1 := ((b3 &&& 0x7f) <<< 8) ||| b4
  pure (buf.drop 5, idd_op,
    { width := max_frame_width_minus_1 + 1, height := max_frame_height_minus_1 + 1,
      profile := seq_profile, level := (seq_level_idx : ℚ) / 8 })

/-- The `for i in range(operating_points_cnt_minus_1 + 1)` loop; `info`
is overwritten on every iteration, exactly as in the source. -/
def av1OpLoop (decoder_model_info_present seq_profile : Nat) :
    Nat → List Nat → Option Nat → VideoCfgInfo → Except String VideoCfgInfo
  | 0, _, _, info => .ok info
  | r + 1, buf, idd_op, _ => do
    let (buf', idd_op', info') ← av1OpStep decoder_model_info_present seq_profile buf idd_op
    av1OpLoop decoder_model_info_present seq_profile r buf' idd_op' info'

/-- `read_av1_specific_config` of `av.py`: drop the 5-byte FLV prefix,
parse the AV1CodecConfigurationRecord.  The decoder-model-info block
only reads bytes 2..5 of the (length-checked) 23-byte prefix; its four
fields are parsed but unused downstream. -/
def read_av1_specific_config (hdr : List Nat) : Except String VideoCfgInfo := do
  let info : VideoCfgInfo := { width := 0, height := 0, profile := 0, level := 0 }
  let b := hdr.drop 5
  if b.length < 23 then return info
  let seq_profile := b.getD 0 0
  let byte1 := b.getD 1 0
  let _still_picture := (byte1 >>> 7) &&& 0x01
  let _reduced_still_picture_header := (byte1 >>> 6) &&& 0x01
  let _timing_info_present := (byte1 >>> 5) &&& 0x01
  let decoder_model_info_present := (byte1 >>> 4) &&& 0x01
  let _initial_display_delay_present := (byte1 >>> 3) &&& 0x01
  let operating_points_cnt_minus_1 := byte1 &&& 0x07
  let _buffer_delay_length_minus_1 := (b.getD 2 0 >>> 5) &&& 0x07
  let _num_units_in_decoding_tick := ((b.getD 2 0 &&& 0x1f) <<< 16) ||| (b.getD 3 0 <<< 8) ||| b.getD 4 0
  let _buffer_removal_time_length_minus_1 := (b.getD 5 0 >>> 5) &&& 0x07
  let _frame_presentation_time_length_minus_1 := b.getD 5 0 &&& 0x1f
  av1OpLoop decoder_model_info_present seq_profile (operating_points_cnt_minus_1 + 1)
    (b.drop 6) none info

/- ===================== Part E: HEVC parser (av.py) ===================== -/

/-- Sequentially consume the given bit counts, discarding the values
(used for the sub-layer profile fields, which the source stores in
lists it never consumes). -/
def Bitop.skipReads (b : Bitop) (ns : List Nat) : Bitop :=
  ns.foldl (fun b n => (b.read n).1) b

/-- Profile/level-present flag pairs of `hevc_parse_ptl`. -/
def hevcPtlFlagLoop : Nat → Bitop → List Nat → List Nat → Bitop × List Nat × List Nat
  | 0, b, ps, ls => (b, ps, ls)
  | n + 1, b, ps, ls =>
    let r1 := b.read 1
    let r2 := r1.1.read 1
    hevcPtlFlagLoop n r2.1 (ps ++ [r1.2]) (ls ++ [r2.2])

/-- The `for i in range(max_sub_layers_minus1, 8): read(2)` filler loop. -/
def hevcPtlSkipLoop : Nat → Bitop → Bitop
  | 0, b => b
  | n + 1, b => hevcPtlSkipLoop n (b.read 2).1

/-- Per-sub-layer loop of `hevc_parse_ptl`, keeping only the
`sub_layer_level_idc` list (the source also stores the profile fields
but never reads them back). -/
def hevcPtlSubLoop : List (Nat × Nat) → Bitop → List Nat → Bitop × List Nat
  | [], b, idcs => (b, idcs)
  | (pf, lf) :: rest, b, idcs =>
    let b := if pf ≠ 0 then b.skipReads [2, 1, 5, 32, 1, 1, 1, 1, 32, 12] else b
    let r :=
      if lf ≠ 0 then
        let q := b.read 8
        (q.1, idcs ++ [q.2])
      else (b, idcs ++ [1])
    hevcPtlSubLoop rest r.1 r.2

/-- Fields of the `general_ptl` dictionary of `hevc_parse_ptl`. -/
structure HevcPtl where
  profile_space : Nat
  tier_flag : Nat
  profile_idc : Nat
  profile_compatibility_flags : Nat
  general_progressive_source_flag : Nat
  general_interlaced_source_flag : Nat
  general_non_packed_constraint_flag : Nat
  general_frame_only_constraint_flag : Nat
  level_idc : Nat
  sub_layer_profile_present_flag : List Nat
  sub_layer_level_present_flag : List Nat
  sub_layer_level_idc : List Nat
deriving DecidableEq

/-- `hevc_parse_ptl` of `av.py` (profile-tier-level block). -/
def hevc_parse_ptl (b : Bitop) (max_sub_layers_minus1 : Nat) : Bitop × HevcPtl :=
  let r1 := b.read 2
  let r2 := r1.1.read 1
  let r3 := r2.1.read 5
  let r4 := r3.1.read 32
  let r5 := r4.1.read 1
  let r6 := r5.1.read 1
  let r7 := r6.1.read 1
  let r8 := r7.1.read 1
  let r9 := r8.1.read 32
  let r10 := r9.1.read 12
  let r11 := r10.1.read 8
  let fl := hevcPtlFlagLoop max_sub_layers_minus1 r11.1 [] []
  let b2 := if max_sub_layers_minus1 > 0 then hevcPtlSkipLoop (8 - max_sub_layers_minus1) fl.1 else fl.1
  let sub := hevcPtlSubLoop (fl.2.1.zip fl.2.2) b2 []
  (sub.1,
   { profile_space := r1.2, tier_flag := r2.2, profile_idc := r3.2,
     profile_compatibility_flags := r4.2,
     general_progressive_source_flag := r5.2, general_interlaced_source_flag := r6.2,
     general_non_packed_constraint_flag := r7.2, general_frame_only_constraint_flag := r8.2,
     level_idc := r11.2,
     sub_layer_profile_present_flag := fl.2.1, sub_layer_level_present_flag := fl.2.2,
     sub_layer_level_idc := sub.2 })

/-- Emulation-prevention-strip loop of `hevc_parse_sps`.  The Python
index `i` of `for i in range(2, n)` advances by exactly one per
iteration (the `i += 2` in the body does not affect the range
iterator), so the fuel is the iteration count `n - 2`.  The `look` is
only evaluated when `i + 2 < n`, mirroring Python's short-circuit. -/
def hevcRbspLoop : Nat → Nat → Nat → Bitop → List Nat → Bitop × List Nat
  | 0, _, _, b, acc => (b, acc)
  | fuel + 1, i, num, b, acc =>
    if i + 2 < num then
      let lk := b.look 24
      if lk.2 = 0x000003 then
        let r1 := lk.1.read 8
        let r2 := r1.1.read 8
        let r3 := r2.1.read 8
        hevcRbspLoop fuel (i + 1) num r3.1 (acc ++ [r1.2, r2.2])
      else
        let r := lk.1.read 8
        hevcRbspLoop fuel (i + 1) num r.1 (acc ++ [r.2])
    else
      let r := b.read 8
      hevcRbspLoop fuel (i + 1) num r.1 (acc ++ [r.2])

/-- Fields of the `psps` dictionary of `hevc_parse_sps`; the four crop
offsets hold the already-multiplied values, as in the source. -/
structure HevcSps where
  sps_video_parameter_set_id : Nat
  sps_max_sub_layers_minus1 : Nat
  sps_temporal_id_nesting_flag : Nat
  profile_tier_level : HevcPtl
  sps_seq_parameter_set_id : Nat
  chroma_format_idc : Nat
  separate_colour_plane_flag : Nat
  pic_width_in_luma_samples : Nat
  pic_height_in_luma_samples : Nat
  conformance_window_flag : Nat
  conf_win_left_offset : Nat
  conf_win_right_offset : Nat
  conf_win_top_offset : Nat
  conf_win_bottom_offset : Nat
deriving DecidableEq

/-- `hevc_parse_sps` of `av.py`: skip the 2-byte NAL header, strip
emulation-prevention bytes, then parse the SPS from the RBSP. -/
def hevc_parse_sps (sps : List Nat) : HevcSps :=
  let num_bytes_in_nal_unit := sps.length
  let b0 := Bitop.mk0 sps
  let b1 := ((((b0.read 1).1.read 6).1.read 6).1.read 3).1
  let rbsp := (hevcRbspLoop (num_bytes_in_nal_unit - 2) 2 num_bytes_in_nal_unit b1 []).2
  let rb := Bitop.mk0 rbsp
  let r1 := rb.read 4
  let r2 := r1.1.read 3
  let r3 := r2.1.read 1
  let ptl := hevc_parse_ptl r3.1 r2.2
  let g1 := ptl.1.read_golomb
  let g2 := g1.1.read_golomb
  let sep := if g2.2 = 3 then (g2.1.read 1) else (g2.1, 0)
  let g3 := sep.1.read_golomb
  let g4 := g3.1.read_golomb
  let cw := g4.1.read 1
  let crops :=
    if cw.2 ≠ 0 then
      let vert_mult := 1 + (if g2.2 < 2 then 1 else 0)
      let horiz_mult := 1 + (if g2.2 < 3 then 1 else 0)
      let c1 := cw.1.read_golomb
      let c2 := c1.1.read_golomb
      let c3 := c2.1.read_golomb
      let c4 := c3.1.read_golomb
      (c1.2 * horiz_mult, c2.2 * horiz_mult, c3.2 * vert_mult, c4.2 * vert_mult)
    else (0, 0, 0, 0)
  { sps_video_parameter_set_id := r1.2, sps_max_sub_layers_minus1 := r2.2,
    sps_temporal_id_nesting_flag := r3.2, profile_tier_level := ptl.2,
    sps_seq_parameter_set_id := g1.2, chroma_format_idc := g2.2,
    separate_colour_plane_flag := sep.2,
    pic_width_in_luma_samples := g3.2, pic_height_in_luma_samples := g4.2,
    conformance_window_flag := cw.2,
    conf_win_left_offset := crops.1, conf_win_right_offset := crops.2.1,
    conf_win_top_offset := crops.2.2.1, conf_win_bottom_offset := crops.2.2.2 }

/-- The `info` assignment performed for each SPS NALU (NAL type 33)
inside `read_hevc_specific_config`. -/
def hevcInfoOfSps (general_profile_idc general_level_idc : Nat) (sps : List Nat) :
    VideoCfgInfo :=
  let psps := hevc_parse_sps sps
  { profile := general_profile_idc,
    level := (general_level_idc : ℚ) / 30,
    width := (psps.pic_width_in_luma_samples : Int) -
      (psps.conf_win_left_offset + psps.conf_win_right_offset),
    height := (psps.pic_height_in_luma_samples : Int) -
      (psps.conf_win_top_offset + psps.conf_win_bottom_offset) }

/-- Inner `for j in range(n)` NALU loop of `read_hevc_specific_config`;
a `break` on a short buffer returns to the array loop with the current
position, as in the source. -/
def hevcNaluLoop (general_profile_idc general_level_idc nalutype : Nat) :
    Nat → List Nat → VideoCfgInfo → List Nat × VideoCfgInfo
  | 0, p, info => (p, info)
  | j + 1, p, info =>
    if p.length < 2 then (p, info)
    else
      let k := (p.getD 0 0 <<< 8) ||| p.getD 1 0
      let p2 := p.drop 2
      if p2.length < k then (p2, info)
      else
        let info2 :=
          if nalutype = 33 then
            hevcInfoOfSps general_profile_idc general_level_idc (p2.take k)
          else info
        hevcNaluLoop general_profile_idc general_level_idc nalutype j (p2.drop k) info2

/-- Outer `for i in range(num_of_arrays)` loop of
`read_hevc_specific_config`. -/
def hevcArrayLoop (general_profile_idc general_level_idc : Nat) :
    Nat → List Nat → VideoCfgInfo → VideoCfgInfo
  | 0, _, info => info
  | i + 1, p, info =>
    if p.length < 3 then info
    else
      let nalutype := p.getD 0 0
      let n := (p.getD 1 0 <<< 8) ||| p.getD 2 0
      let step := hevcNaluLoop general_profile_idc general_level_idc nalutype n (p.drop 3) info
      hevcArrayLoop general_profile_idc general_level_idc i step.1 step.2

/-- `read_hevc_specific_config` of `av.py`: drop the 5-byte FLV prefix,
check the 23-byte HEVCDecoderConfigurationRecord prefix
(`configurationVersion` must be 1), then walk the NALU arrays.  The
record fields other than `general_profile_idc`, `general_level_idc` and
`numOfArrays` are extracted by the source but never used downstream. -/
def read_hevc_specific_config (hdr : List Nat) : VideoCfgInfo :=
  let info : VideoCfgInfo := { width := 0, height := 0, profile := 0, level := 0 }
  let h := hdr.drop 5
  if h.length < 23 then info
  else if h.getD 0 0 ≠ 1 then info
  else
    let general_profile_idc := h.getD 1 0 &&& 0x1f
    let general_level_idc := h.getD 12 0
    let num_of_arrays := h.getD 22 0
    hevcArrayLoop general_profile_idc general_level_idc num_of_arrays (h.drop 23) info

/-- Specification-side mirror of `hevcNaluLoop` that collects the SPS
NALU bodies the walk processes, in order, together with the remaining
buffer.  It repeats the loop's own traversal (same length guards and
`break`s) without computing any `info`, so the loop can be related to a
fold over this list. -/
def hevcNaluBodies (nalutype : Nat) : Nat → List Nat → List (List Nat) × List Nat
  | 0, p => ([], p)
  | j + 1, p =>
    if p.length < 2 then ([], p)
    else
      let k := (p.getD 0 0 <<< 8) ||| p.getD 1 0
      let p2 := p.drop 2
      if p2.length < k then ([], p2)
      else
        let r := hevcNaluBodies nalutype j (p2.drop k)
        ((if nalutype = 33 then [p2.take k] else []) ++ r.1, r.2)

/-- Specification-side mirror of `hevcArrayLoop`: all SPS bodies of a
header's NALU arrays, in processing order. -/
def hevcArrayBodies : Nat → List Nat → List (List Nat)
  | 0, _ => []
  | i + 1, p =>
    if p.length < 3 then []
    else
      let nalutype := p.getD 0 0
      let n := (p.getD 1 0 <<< 8) ||| p.getD 2 0
      let r := hevcNaluBodies nalutype n (p.drop 3)
      r.1 ++ hevcArrayBodies i r.2

/-- The SPS NALU bodies that `read_hevc_specific_config` walks over for
a given sequence-header payload (empty when the record prefix is short
or its `configurationVersion` is not 1).  The parser's reported
width/height/profile/level come from the LAST element of this list. -/
def hevcSpsNALUs (hdr : List Nat) : List (List Nat) :=
  let h := hdr.drop 5
  if h.length < 23 then []
  else if h.getD 0 0 ≠ 1 then []
  else hevcArrayBodies (h.getD 22 0) (h.drop 23)

/- ----- Concrete HEVC test vectors for the conformance-window claim ----- -/

/-- Big-endian bit expansion of `n` (empty for 0); the fuel `n` bounds
the number of binary digits. -/
def natBitsGo : Nat → Nat → List Nat → List Nat
  | 0, _, acc => acc
  | fuel + 1, n, acc => if n = 0 then acc else natBitsGo fuel (n / 2) (n % 2 :: acc)

def natBits (n : Nat) : List Nat := natBitsGo n n []

/-- Fixed-width big-endian bit list of `n`. -/
def natBitsW (w n : Nat) : List Nat :=
  List.replicate (w - (natBits n).length) 0 ++ natBits n

/-- Exp-Golomb code of `v` (leading zeros, then the binary of `v + 1`). -/
def expGolombBits (v : Nat) : List Nat :=
  List.replicate ((natBits (v + 1)).length - 1) 0 ++ natBits (v + 1)

/-- Pack an MSB-first bit list into bytes, zero-padding the tail. -/
def bitsToBytesGo : Nat → List Nat → List Nat
  | 0, _ => []
  | fuel + 1, bits =>
    match bits with
    | [] => []
    | _ =>
      let first := bits.take 8
      ((first ++ List.replicate (8 - first.length) 0).foldl (fun a c => a * 2 + c) 0) ::
        bitsToBytesGo fuel (bits.drop 8)

def bitsToBytes (bits : List Nat) : List Nat := bitsToBytesGo bits.length bits

/-- Profile-tier-level bits of the test SPS: profile_idc 1, all flags
clear, level_idc 120, no sub-layers. -/
def hevcTestPtlBits : List Nat :=
  natBitsW 2 0 ++ natBitsW 1 0 ++ natBitsW 5 1 ++ natBitsW 32 0 ++
  natBitsW 4 0 ++ natBitsW 32 0 ++ natBitsW 12 0 ++ natBitsW 8 120

/-- Test SPS NALU (2-byte NAL header plus RBSP) with
`chroma_format_idc = 1`, `pic_width_in_luma_samples = w`,
`pic_height_in_luma_samples = 1080`, `conformance_window_flag = 1` and
raw crop offsets left = right = 2, top = bottom = 0. -/
def hevcTestSpsBytes (w : Nat) : List Nat :=
  [0x42, 0x01] ++
  bitsToBytes (natBitsW 4 0 ++ natBitsW 3 0 ++ natBitsW 1 0 ++ hevcTestPtlBits ++
    expGolombBits 0 ++ expGolombBits 1 ++ expGolombBits w ++ expGolombBits 1080 ++
    [1] ++ expGolombBits 2 ++ expGolombBits 2 ++ expGolombBits 0 ++ expGolombBits 0)

/-- Full HEVC sequence-header payload around `hevcTestSpsBytes`: 5-byte
FLV prefix, a 23-byte record (version 1, profile 1, level 120, one
array), one SPS array entry of NAL type 33. -/
def hevcTestHeader (w : Nat) : List Nat :=
  let sps := hevcTestSpsBytes w
  [0, 0, 0, 0, 0] ++
  [1, 1, 0, 0, 0, 0, 0, 0, 0, 0, 0, 0, 120, 0, 0, 0, 1, 0, 0, 0, 0, 3, 1] ++
  [33, 0, 1] ++ [sps.length >>> 8, sps.length &&& 0xff] ++ sps

/- ===================== Part F: inbound chunk codec (rtmp.py) ===================== -/

def RTMP_CHUNK_TYPE_0 : Nat := 0
def RTMP_CHUNK_TYPE_1 : Nat := 1
def RTMP_CHUNK_TYPE_2 : Nat := 2
def RTMP_TYPE_DATA : Nat := 18
def RTMP_TYPE_METADATA : Nat := 22
def RTMP_CHANNEL_DATA : Nat := 6
def MAX_CHUNK_SIZE : Nat := 10485760

/-- Association-list lookup (Python dictionary access). -/
def alistGet {κ α : Type} [DecidableEq κ] : List (κ × α) → κ → Option α
  | [], _ => none
  | (k, v) :: rest, key => if k = key then some v else alistGet rest key

/-- Association-list insert-or-replace (Python dictionary assignment). -/
def alistSet {κ α : Type} [DecidableEq κ] : List (κ × α) → κ → α → List (κ × α)
  | [], key, v => [(key, v)]
  | (k, w) :: rest, key, v =>
    if k = key then (k, v) :: rest else (k, w) :: alistSet rest key v

/-- One entry of `IncomingPackets` (see `createPacket` in `rtmp.py`).
The wall-clock `last_received_time` field only feeds the 120 s idle
purge and is omitted. -/
structure InPacket where
  fmt : Nat
  cid : Nat
  timestamp : Nat
  extended_timestamp : Nat
  payload_length : Nat
  msg_type_id : Nat
  msg_stream_id : Nat
  payload : List Nat
deriving DecidableEq

/-- `RTMPServer.createPacket` of `rtmp.py`. -/
def createPacket (cid fmt : Nat) : InPacket :=
  { fmt := fmt, cid := cid, timestamp := 0, extended_timestamp := 0,
    payload_length := 0, msg_type_id := 0, msg_stream_id := 0, payload := [] }

/-- The per-session inbound state read and written by `get_chunk_data`. -/
structure InState where
  chunk_size : Nat
  window_acknowledgement_size : Nat
  inAckSize : Nat
  inLastAck : Nat
  packets : List (Nat × InPacket)
deriving DecidableEq

/-- `ClientState` defaults: chunk size 128, window 5,000,000. -/
def initInState : InState :=
  { chunk_size := 128, window_acknowledgement_size := 5000000,
    inAckSize := 0, inLastAck := 0, packets := [] }

/-- The `rtmp_packet` dictionary handed to `handle_rtmp_packet`. -/
structure RtmpPacket where
  fmt : Nat
  cid : Nat
  timestamp : Nat
  length : Nat
  type : Nat
  stream_id : Nat
  payload : List Nat
deriving DecidableEq

/-- `reader.readexactly(n)`: `n` bytes or an exception (which
`get_chunk_data` converts into a client disconnect). -/
def readExactly (input : List Nat) (n : Nat) : Except Unit (List Nat × List Nat) :=
  if input.length < n then .error () else .ok (input.take n, input.drop n)

/-- Python `int.from_bytes(_, byteorder='big')`. -/
def bytesToNatBE (l : List Nat) : Nat := l.foldl (fun a b => a * 256 + b) 0

/-- Result of one `get_chunk_data` call: the new session state, the
message emitted to the dispatcher (when a payload completed), whether
an Acknowledgement was sent, and the unconsumed input. -/
structure ChunkStepResult where
  state : InState
  emitted : Option RtmpPacket
  ackSent : Bool
  rest : List Nat
deriving DecidableEq

/-- `RTMPServer.get_chunk_data` of `rtmp.py`, one chunk: read the basic
header (keeping the source's `(64 + b1 + b2) << 8` computation for the
3-byte form), fill the per-CSID cache according to `fmt` (the stream id
is read BIG-endian by the source), validate the type id, read the
extended timestamp when the cached timestamp is 0xFFFFFF, read
`min(chunk_size, remaining)` payload bytes, and emit the message once
the payload is complete.  Exceptions (`Except.error`) are the
`DisconnectClientException` path; dispatch is modelled by returning the
emitted packet. -/
def get_chunk_data (st : InState) (input : List Nat) : Except Unit ChunkStepResult := do
  let (h0, input) ← readExactly input 1
  let b0 := h0.headD 0
  let cid0 := b0 &&& 0b00111111
  let (cid, basicLen, input) ←
    if cid0 = 0 then do
      let (h1, input) ← readExactly input 1
      pure (64 + h1.headD 0, 2, input)
    else if cid0 = 1 then do
      let (h2, input) ← readExactly input 2
      pure ((64 + h2.headD 0 + h2.getD 1 0) <<< 8, 3, input)
    else
      pure (cid0, 1, input)
  let fmt := (b0 &&& 0b11000000) >>> 6
  let pkt :=
    match alistGet st.packets cid with
    | some p => p
    | none => createPacket cid fmt
  let (pkt, input) ←
    if fmt ≤ RTMP_CHUNK_TYPE_2 then do
      let (ts, input) ← readExactly input 3
      pure ({ pkt with timestamp := bytesToNatBE ts }, input)
    else pure (pkt, input)
  let (pkt, input) ←
    if fmt ≤ RTMP_CHUNK_TYPE_1 then do
      let (ln, input) ← readExactly input 3
      let (ty, input) ← readExactly input 1
      pure ({ pkt with payload_length := bytesToNatBE ln,
                       msg_type_id := bytesToNatBE ty, payload := [] }, input)
    else pure (pkt, input)
  let (pkt, input) ←
    if fmt = RTMP_CHUNK_TYPE_0 then do
      let (sid, input) ← readExactly input 4
      pure ({ pkt with msg_stream_id := bytesToNatBE sid }, input)
    else pure (pkt, input)
  let hdrLen := if fmt = 0 then 11 else if fmt = 1 then 7 else if fmt = 2 then 3 else 0
  let payload_length :=
    if fmt ≤ RTMP_CHUNK_TYPE_1 then pkt.payload_length
    else pkt.payload_length - pkt.payload.length
  if RTMP_TYPE_METADATA < pkt.msg_type_id then throw ()
  let (pkt, extLen, input) ←
    if pkt.timestamp = 0xffffff then do
      let (ext, input) ← readExactly input 4
      pure ({ pkt with extended_timestamp := bytesToNatBE ext }, 4, input)
    else pure (pkt, 0, input)
  let st := { st with inAckSize := st.inAckSize + basicLen + hdrLen + extLen }
  if payload_length > 0 then
    let count := min st.chunk_size payload_length
    let (pb, input) ← readExactly input count
    let st := { st with inAckSize := st.inAckSize + count }
    let pkt := { pkt with payload := pkt.payload ++ pb }
    let st := if st.inAckSize ≥ 0xF0000000 then { st with inAckSize := 0, inLastAck := 0 } else st
    let (pkt, emitted) :=
      if pkt.payload.length ≥ pkt.payload_length then
        ({ pkt with payload := [] },
         some { fmt := pkt.fmt, cid := pkt.cid, timestamp := pkt.timestamp,
                length := pkt.payload_length, type := pkt.msg_type_id,
                stream_id := pkt.msg_stream_id, payload := pkt.payload })
      else (pkt, none)
    let (st, ackSent) :=
      if st.window_acknowledgement_size > 0 ∧
         st.window_acknowledgement_size ≤ st.inAckSize - st.inLastAck then
        ({ st with inLastAck := st.inAckSize }, true)
      else (st, false)
    pure { state := { st with packets := alistSet st.packets cid pkt },
           emitted := emitted, ackSent := ackSent, rest := input }
  else
    pure { state := { st with packets := alistSet st.packets cid { pkt with payload := [] } },
           emitted := none, ackSent := false, rest := input }

/-- `RTMPServer.handle_chunk_size_message` of `rtmp.py`: disconnect
when the announced size exceeds `MAX_CHUNK_SIZE`, otherwise adopt it
(there is no lower bound in the source). -/
def handle_chunk_size_message (st : InState) (payload : List Nat) : Except Unit InState :=
  let new_chunk_size := bytesToNatBE payload
  if MAX_CHUNK_SIZE < new_chunk_size then .error ()
  else .ok { st with chunk_size := new_chunk_size }

/- ===================== Part G: outbound chunk codec (common.py / rtmp.py) ===================== -/

def PROTOCOL_CHANNEL_ID : Nat := 2
def RTMP_TYPE_AUDIO : Nat := 8

/-- Control nibbles of `common.Header`
(FULL / MESSAGE / TIME / SEPARATOR). -/
def headerFULL : Nat := 0x00
def headerMESSAGE : Nat := 0x40
def headerTIME : Nat := 0x80
def headerSEPARATOR : Nat := 0xC0

/-- `common.Header`.  `size` and `type` default to Python `None`, but
every path of `writeMessage` assigns them before `toBytes` reads them,
so they are plain naturals here; `delta` is the attribute assigned
dynamically by `writeMessage`. -/
structure WHeader where
  channel : Nat
  time : Nat
  size : Nat
  type : Nat
  streamId : Nat
  delta : Nat
deriving DecidableEq

def mkWHeader (channel : Nat) : WHeader :=
  { channel := channel, time := 0, size := 0, type := 0, streamId := 0, delta := 0 }

/-- `hdrdata` as computed by `Header.__init__`: 1-, 2- or 3-byte basic
header for the channel (big-endian 16-bit value in the 3-byte form). -/
def hdrdataOf (channel : Nat) : List Nat :=
  if channel < 64 then [channel]
  else if channel < 320 then [0, channel - 64]
  else [1, ((channel - 64) >>> 8) &&& 0xff, (channel - 64) &&& 0xff]

/-- Big-endian 3-byte encoding (Python `struct.pack('>I', x)[1:]`). -/
def be3 (n : Nat) : List Nat := [(n >>> 16) &&& 0xff, (n >>> 8) &&& 0xff, n &&& 0xff]

/-- Big-endian 4-byte encoding (`struct.pack('>I', x)`). -/
def be4 (n : Nat) : List Nat :=
  [(n >>> 24) &&& 0xff, (n >>> 16) &&& 0xff, (n >>> 8) &&& 0xff, n &&& 0xff]

/-- LITTLE-endian 4-byte encoding (`struct.pack('<I', x)`). -/
def le4 (n : Nat) : List Nat :=
  [n &&& 0xff, (n >>> 8) &&& 0xff, (n >>> 16) &&& 0xff, (n >>> 24) &&& 0xff]

/-- `Header.toBytes` of `common.py`: the message-stream id is written
little-endian, and a 4-byte big-endian extended timestamp is appended
whenever `time ≥ 0xFFFFFF` and the control is not SEPARATOR. -/
def WHeader.toBytes (h : WHeader) (control : Nat) : List Nat :=
  let hd := hdrdataOf h.channel
  let data := (hd.headD 0 ||| control) :: hd.drop 1
  if control ≠ headerSEPARATOR then
    let data := data ++ be3 (if h.time < 0xffffff then h.time else 0xffffff)
    let data :=
      if control ≠ headerTIME then
        let data := data ++ be3 h.size ++ [h.type]
        if control ≠ headerMESSAGE then data ++ le4 h.streamId else data
      else data
    if h.time ≥ 0xffffff then data ++ be4 h.time else data
  else data

/-- `common.Message` as consumed by `writeMessage`: header fields plus
payload (`size` is `len(data)`). -/
structure OMessage where
  streamId : Nat
  type : Nat
  time : Nat
  data : List Nat
deriving DecidableEq

/-- Per-session outbound state used by `writeMessage`. -/
structure OutState where
  lastWriteHeaders : List (Nat × WHeader)
  nextChannelId : Nat
  out_chunk_size : Nat
deriving DecidableEq

def initOutState : OutState :=
  { lastWriteHeaders := [], nextChannelId := PROTOCOL_CHANNEL_ID + 1, out_chunk_size := 4096 }

/-- Chunking loop of `writeMessage`: the first chunk carries the chosen
header, later chunks are SEPARATOR (fmt 3) continuations of up to
`out_chunk_size` payload bytes.  The fuel is the payload length; each
iteration consumes at least one byte whenever `out_chunk_size ≥ 1`
(the server default is 4096, and the value is never set to 0). -/
def writeChunksGo (hdr : WHeader) (out_chunk_size : Nat) :
    Nat → Nat → List Nat → List Nat
  | 0, _, _ => []
  | fuel + 1, control, data =>
    match data with
    | [] => []
    | _ =>
      let count := min out_chunk_size data.length
      hdr.toBytes control ++ data.take count ++
        writeChunksGo hdr out_chunk_size fuel headerSEPARATOR (data.drop count)

/-- `RTMPServer.writeMessage` of `rtmp.py`: look up (or allocate, from
`nextChannelId`) the cached outbound header for the message's stream
id; protocol-control messages (type < AUDIO) are redirected to channel
2 with a fresh, uncached record.  Choose FULL / MESSAGE / TIME by
diffing against the record, update the record, and chunk the payload. -/
def writeMessage (st : OutState) (msg : OMessage) : OutState × List Nat :=
  let pick :=
    match alistGet st.lastWriteHeaders msg.streamId with
    | some h => (h, st)
    | none =>
      let next := if st.nextChannelId ≤ PROTOCOL_CHANNEL_ID then PROTOCOL_CHANNEL_ID + 1
                  else st.nextChannelId
      let h := mkWHeader next
      (h, { st with lastWriteHeaders := alistSet st.lastWriteHeaders msg.streamId h,
                    nextChannelId := next + 1 })
  let st := pick.2
  let header := if msg.type < RTMP_TYPE_AUDIO then mkWHeader PROTOCOL_CHANNEL_ID else pick.1
  let hc :=
    if header.streamId ≠ msg.streamId ∨ header.time = 0 ∨ msg.time ≤ header.time then
      ({ header with streamId := msg.streamId, type := msg.type, size := msg.data.length,
                     time := msg.time, delta := msg.time }, headerFULL)
    else if header.size ≠ msg.data.length ∨ header.type ≠ msg.type then
      ({ header with type := msg.type, size := msg.data.length, time := msg.time,
                     delta := msg.time - header.time }, headerMESSAGE)
    else
      ({ header with time := msg.time, delta := msg.time - header.time }, headerTIME)
  let header := hc.1
  let control := hc.2
  let st :=
    if msg.type < RTMP_TYPE_AUDIO then st
    else { st with lastWriteHeaders := alistSet st.lastWriteHeaders msg.streamId header }
  let hdr : WHeader :=
    { channel := header.channel,
      time := if control = headerMESSAGE ∨ control = headerTIME then header.delta
              else header.time,
      size := header.size, type := header.type, streamId := header.streamId, delta := 0 }
  (st, writeChunksGo hdr st.out_chunk_size msg.data.length control msg.data)

/- ===================== Part H: publish / play handlers (rtmp.py) ===================== -/

/-- One entry of the global `LiveUsers` registry (see `handle_publish`). -/
structure LiveEntry where
  client_id : String
  stream_mode : String
  stream_path : String
  publish_stream_id : Nat
  app : String
deriving DecidableEq

/-- An `onStatus` message produced by `sendStatusMessage` (its
wall-clock `tm` field is omitted). -/
structure StatusMsg where
  sid : Nat
  level : String
  code : String
  description : String
deriving DecidableEq

/-- Python `streamPath.split("?")[0]`: the prefix before the first
question mark. -/
def stringBeforeQuery (s : String) : String := ⟨s.data.takeWhile (fun c => c ≠ '?')⟩

/-- The `ClientState` fields written by `handle_publish`. -/
structure PubClientState where
  app : String
  stream_mode : Option String
  streamPath : String
  publishStreamId : Nat
  publishStreamPath : String
deriving DecidableEq

/-- Outcome of `handle_publish`: updated client state and registry, the
status messages sent, and whether `DisconnectClientException` was
raised. -/
structure PublishOutcome where
  state : PubClientState
  liveUsers : List (String × LiveEntry)
  events : List StatusMsg
  disconnected : Bool
deriving DecidableEq

/-- `RTMPServer.handle_publish` of `rtmp.py`.  `args` is the AMF
argument list (stream key, then optional mode, default `live`).  An
empty list makes `invoke['args'][0]` raise `IndexError`, which the
caller turns into a disconnect with no status message (`stream_mode`
has already been assigned by then).  The `LiveUsers` registry is
checked and written only when the requested mode is `live`. -/
def handle_publish (client_id : String) (cs : PubClientState)
    (liveUsers : List (String × LiveEntry)) (args : List String) (sid : Nat) :
    PublishOutcome :=
  let mode := if args.length < 2 then "live" else args.getD 1 ""
  match args with
  | [] =>
    { state := { cs with stream_mode := some mode }, liveUsers := liveUsers,
      events := [], disconnected := true }
  | key :: _ =>
    let cs := { cs with
                stream_mode := some mode, streamPath := key, publishStreamId := sid,
                publishStreamPath := "/" ++ cs.app ++ "/" ++ stringBeforeQuery key }
    if key = "" then
      { state := cs, liveUsers := liveUsers,
        events := [{ sid := sid, level := "error", code := "NetStream.publish.Unauthorized",
                     description := "Authorization required." }],
        disconnected := true }
    else if mode = "live" then
      if (alistGet liveUsers cs.app).isSome then
        { state := cs, liveUsers := liveUsers,
          events := [{ sid := sid, level := "error", code := "NetStream.Publish.BadName",
                       description := "Stream already publishing" }],
          disconnected := true }
      else
        { state := cs,
          liveUsers := alistSet liveUsers cs.app
            { client_id := client_id, stream_mode := mode, stream_path := key,
              publish_stream_id := sid, app := cs.app },
          events := [{ sid := sid, level := "status", code := "NetStream.Publish.Start",
                       description := cs.publishStreamPath ++ " is now published." }],
          disconnected := false }
    else
      { state := cs, liveUsers := liveUsers,
        events := [{ sid := sid, level := "status", code := "NetStream.Publish.Start",
                     description := cs.publishStreamPath ++ " is now published." }],
        disconnected := false }

/-- The publisher-side `ClientState` fields read by `handle_onPlay`.
`metaData` is the AMF value cached from `@setDataFrame`; its type is a
parameter because the AMF0 codec is external to the repository. -/
structure PlayPubState (α : Type) where
  metaDataPayload : Option (List Nat)
  metaData : α
  aacSequenceHeader : Option (List Nat)
  avcSequenceHeader : Option (List Nat)
deriving DecidableEq

/-- A message sent to the player by `handle_onPlay`: an `onStatus`
response, or the publisher's cached metadata re-encoded by the external
AMF0 writer as an `onMetaData` data message with the given channel,
message type and stream id. -/
inductive PlayEvent (α : Type) where
  | status (s : StatusMsg)
  | metaDataMessage (channel typ streamId : Nat) (meta : α)
deriving DecidableEq

/-- Outcome of `handle_onPlay`. -/
structure PlayOutcome (α : Type) where
  events : List (PlayEvent α)
  disconnected : Bool
  liveUsers : List (String × LiveEntry)
deriving DecidableEq

/-- `RTMPServer.handle_onPlay` of `rtmp.py`.  With no publisher
registered for the session's app, the player gets an error status and
is disconnected.  Otherwise the publisher's cached metadata (when
present) is replayed as an `onMetaData` data message; the source
neither records the player in any registry structure nor replays the
cached AAC/AVC sequence headers.  A failed `client_states` lookup is
the generic exception path: disconnect with nothing sent. -/
def handle_onPlay {α : Type} (cs_app : String) (cs_publishStreamId : Nat)
    (liveUsers : List (String × LiveEntry))
    (clientStates : List (String × PlayPubState α)) (invoke_sid : Nat) :
    PlayOutcome α :=
  match alistGet liveUsers cs_app with
  | none =>
    { events := [.status { sid := cs_publishStreamId, level := "error",
                           code := "NetStream.Play.BadName",
                           description := "Stream not exists" }],
      disconnected := true, liveUsers := liveUsers }
  | some entry =>
    match alistGet clientStates entry.client_id with
    | none => { events := [], disconnected := true, liveUsers := liveUsers }
    | some pub =>
      match pub.metaDataPayload with
      | none => { events := [], disconnected := false, liveUsers := liveUsers }
      | some _ =>
        { events := [.metaDataMessage RTMP_CHANNEL_DATA RTMP_TYPE_DATA invoke_sid pub.metaData],
          disconnected := false, liveUsers := liveUsers }

/- ===================== Theorems ===================== -/

/-- Claim C10: after `handle_audio_data` processes an AAC sequence header
(first payload nibble 10 and `payload[1] = 0`), the session's
`audioChannels` field is set to the `sample_rate` parsed from the
AudioSpecificConfig — not to the parsed channel count — while
`audioSampleRate` and `audioProfileName` are set from the same parse. -/
theorem c10_aac_channels_gets_sample_rate (st : AudioState) (payload : List Nat) (p0 : Nat)
    (h0 : payload.get? 0 = some p0) (hfmt : (p0 >>> 4) &&& 0x0f = 10)
    (h1 : payload.get? 1 = some 0) :
    handle_audio_data st payload =
      .ok { (if st.audioCodec = 0 then
               { st with
                 audioCodec := 10,
                 audioCodecName := AUDIO_CODEC_NAME.getD 10 "",
                 audioSampleRate := AUDIO_SOUND_RATE.getD ((p0 >>> 2) &&& 0x03) 0,
                 audioChannels := (p0 &&& 0x01) + 1 }
             else st) with
            isFirstAudioReceived := true,
            aacSequenceHeader := some payload,
            audioProfileName := get_aac_profile_name (read_aac_specific_config payload),
            audioSampleRate := (read_aac_specific_config payload).sample_rate,
            audioChannels := (read_aac_specific_config payload).sample_rate } := by
  unfold handle_audio_data
  rw [h0]
  simp only [hfmt, h1]
  norm_num

/-- Claim C1 (counterexample): with a publisher registered for app
`live` that has cached metadata, an AAC sequence header and an AVC
sequence header, `handle_onPlay` sends ONLY the metadata message: no
subscription is recorded anywhere (the registry is unchanged and the
source has no subscriber structure) and the cached sequence headers are
never replayed. -/
theorem c1_play_no_replay_counterexample :
    handle_onPlay "live" 0
      [("live", { client_id := "pub1", stream_mode := "live", stream_path := "abc",
                  publish_stream_id := 1, app := "live" })]
      [("pub1", { metaDataPayload := some [2, 0, 10], metaData := (42 : Nat),
                  aacSequenceHeader := some [0xAF, 0, 0x12, 0x10],
                  avcSequenceHeader := some [0x17, 0, 0, 0, 0] })]
      5 =
      { events := [.metaDataMessage 6 18 5 42], disconnected := false,
        liveUsers := [("live", { client_id := "pub1", stream_mode := "live",
                                 stream_path := "abc", publish_stream_id := 1,
                                 app := "live" })] } := by
  decide

/-- Claim C1 as amended: a play command on an app with no registered
publisher sends the `NetStream.Play.BadName` error status and
disconnects (this part of the claim holds); with a registered
publisher, the session is not subscribed to anything (the registry is
returned unchanged), the cached metadata is replayed as an `onMetaData`
data message when present, and no AAC/AVC sequence headers are sent. -/
theorem c1_play_behavior {α : Type} (app : String) (psid : Nat)
    (liveUsers : List (String × LiveEntry))
    (clientStates : List (String × PlayPubState α)) (sid : Nat) :
    (alistGet liveUsers app = none →
      handle_onPlay app psid liveUsers clientStates sid =
        { events := [.status { sid := psid, level := "error",
                               code := "NetStream.Play.BadName",
                               description := "Stream not exists" }],
          disconnected := true, liveUsers := liveUsers }) ∧
    (∀ entry pub, alistGet liveUsers app = some entry →
      alistGet clientStates entry.client_id = some pub →
      handle_onPlay app psid liveUsers clientStates sid =
        { events :=
            match pub.metaDataPayload with
            | some _ => [.metaDataMessage RTMP_CHANNEL_DATA RTMP_TYPE_DATA sid pub.metaData]
            | none => [],
          disconnected := false, liveUsers := liveUsers }) := by
  constructor
  · intro h
    unfold handle_onPlay
    rw [h]
  · intro entry pub h1 h2
    unfold handle_onPlay
    simp only [h1, h2]
    rcases hm : pub.metaDataPayload with _ | v <;> simp [hm]

/-- Witness for the amended C1: with an empty registry the player is
refused with `NetStream.Play.BadName`, and with a publisher whose
metadata cache is empty nothing at all is sent while the registry stays
as it was. -/
theorem c1_play_behavior_witness :
    handle_onPlay "tv" 7 ([] : List (String × LiveEntry))
      ([] : List (String × PlayPubState Nat)) 9 =
      { events := [.status { sid := 7, level := "error", code := "NetStream.Play.BadName",
                             description := "Stream not exists" }],
        disconnected := true, liveUsers := [] } ∧
    handle_onPlay "tv" 7
      [("tv", { client_id := "p9", stream_mode := "live", stream_path := "z",
                publish_stream_id := 3, app := "tv" })]
      [("p9", { metaDataPayload := none, metaData := (0 : Nat),
                aacSequenceHeader := some [0xAF, 0], avcSequenceHeader := none })]
      9 =
      { events := [], disconnected := false,
        liveUsers := [("tv", { client_id := "p9", stream_mode := "live", stream_path := "z",
                               publish_stream_id := 3, app := "tv" })] } :=
  ⟨(c1_play_behavior "tv" 7 [] [] 9).1 (by decide),
   (c1_play_behavior "tv" 7
      [("tv", { client_id := "p9", stream_mode := "live", stream_path := "z",
                publish_stream_id := 3, app := "tv" })]
      [("p9", { metaDataPayload := none, metaData := (0 : Nat),
                aacSequenceHeader := some [0xAF, 0], avcSequenceHeader := none })]
      9).2
     { client_id := "p9", stream_mode := "live", stream_path := "z",
       publish_stream_id := 3, app := "tv" }
     { metaDataPayload := none, metaData := (0 : Nat),
       aacSequenceHeader := some [0xAF, 0], avcSequenceHeader := none }
     (by decide) (by decide)⟩

/-- Claim C2 (counterexample): a publish in `record` mode with a
non-empty key and an empty registry replies `NetStream.Publish.Start`
but does NOT insert anything into the registry — the insert happens
only in `live` mode, so the claim's unconditional "otherwise it inserts
app to session" fails here. -/
theorem c2_publish_record_mode_counterexample :
    handle_publish "c2" { app := "live", stream_mode := none, streamPath := "",
                          publishStreamId := 0, publishStreamPath := "" }
      [] ["abc", "record"] 1 =
      { state := { app := "live", stream_mode := some "record", streamPath := "abc",
                   publishStreamId := 1, publishStreamPath := "/live/abc" },
        liveUsers := [],
        events := [{ sid := 1, level := "status", code := "NetStream.Publish.Start",
                     description := "/live/abc is now published." }],
        disconnected := false } := by
  decide

/-- Claim C2 as amended: an empty stream key gets
`NetStream.publish.Unauthorized` and a disconnect; in live mode an
existing registry entry for the app gets `NetStream.Publish.BadName`
and a disconnect with the first publisher's entry untouched; in live
mode with no existing entry the session is registered and gets
`NetStream.Publish.Start`; in record/append mode the server replies
`NetStream.Publish.Start` WITHOUT touching the registry. -/
theorem c2_publish_behavior (client_id : String) (cs : PubClientState)
    (liveUsers : List (String × LiveEntry)) (args : List String) (sid : Nat)
    (key mode : String) (hhead : args.head? = some key)
    (hmode : (if args.length < 2 then "live" else args.getD 1 "") = mode) :
    let cs2 : PubClientState :=
      { cs with stream_mode := some mode, streamPath := key, publishStreamId := sid,
                publishStreamPath := "/" ++ cs.app ++ "/" ++ stringBeforeQuery key }
    (key = "" →
      handle_publish client_id cs liveUsers args sid =
        { state := cs2, liveUsers := liveUsers,
          events := [{ sid := sid, level := "error",
                       code := "NetStream.publish.Unauthorized",
                       description := "Authorization required." }],
          disconnected := true }) ∧
    (key ≠ "" → mode = "live" → ∀ e, alistGet liveUsers cs.app = some e →
      handle_publish client_id cs liveUsers args sid =
        { state := cs2, liveUsers := liveUsers,
          events := [{ sid := sid, level := "error", code := "NetStream.Publish.BadName",
                       description := "Stream already publishing" }],
          disconnected := true }) ∧
    (key ≠ "" → mode = "live" → alistGet liveUsers cs.app = none →
      handle_publish client_id cs liveUsers args sid =
        { state := cs2,
          liveUsers := alistSet liveUsers cs.app
            { client_id := client_id, stream_mode := mode, stream_path := key,
              publish_stream_id := sid, app := cs.app },
          events := [{ sid := sid, level := "status", code := "NetStream.Publish.Start",
                       description := cs2.publishStreamPath ++ " is now published." }],
          disconnected := false }) ∧
    (key ≠ "" → mode ≠ "live" →
      handle_publish client_id cs liveUsers args sid =
        { state := cs2, liveUsers := liveUsers,
          events := [{ sid := sid, level := "status", code := "NetStream.Publish.Start",
                       description := cs2.publishStreamPath ++ " is now published." }],
          disconnected := false }) := by
  cases args with
  | nil => simp at hhead
  | cons k rest =>
    simp only [List.head?] at hhead
    cases hhead
    intro cs2
    refine ⟨fun hk => ?_, fun hk hm e he => ?_, fun hk hm hn => ?_, fun hk hm => ?_⟩
    · subst hk
      simp only [handle_publish, hmode]
      simp
    · simp only [handle_publish, hmode]
      rw [if_neg hk, if_pos hm, he]
      rfl
    · simp only [handle_publish, hmode]
      rw [if_neg hk, if_pos hm, hn]
      rfl
    · simp only [handle_publish, hmode]
      rw [if_neg hk, if_neg hm]

/-- Witness for the amended C2 at concrete inputs: an empty key is
refused with `NetStream.publish.Unauthorized`; a live publish on a free
app registers the session and replies `NetStream.Publish.Start`. -/
theorem c2_publish_behavior_witness :
    handle_publish "c9" { app := "tv", stream_mode := none, streamPath := "",
                          publishStreamId := 0, publishStreamPath := "" }
      [] [""] 4 =
      { state := { app := "tv", stream_mode := some "live", streamPath := "",
                   publishStreamId := 4, publishStreamPath := "/tv/" },
        liveUsers := [],
        events := [{ sid := 4, level := "error", code := "NetStream.publish.Unauthorized",
                     description := "Authorization required." }],
        disconnected := true } ∧
    handle_publish "c9" { app := "tv", stream_mode := none, streamPath := "",
                          publishStreamId := 0, publishStreamPath := "" }
      [] ["k1?auth=1"] 4 =
      { state := { app := "tv", stream_mode := some "live", streamPath := "k1?auth=1",
                   publishStreamId := 4, publishStreamPath := "/tv/k1" },
        liveUsers := [("tv", { client_id := "c9", stream_mode := "live",
                               stream_path := "k1?auth=1", publish_stream_id := 4,
                               app := "tv" })],
        events := [{ sid := 4, level := "status", code := "NetStream.Publish.Start",
                     description := "/tv/k1 is now published." }],
        disconnected := false } :=
  ⟨(c2_publish_behavior "c9"
      { app := "tv", stream_mode := none, streamPath := "", publishStreamId := 0,
        publishStreamPath := "" } [] [""] 4 "" "live" (by decide) (by decide)).1 rfl,
   (c2_publish_behavior "c9"
      { app := "tv", stream_mode := none, streamPath := "", publishStreamId := 0,
        publishStreamPath := "" } [] ["k1?auth=1"] 4 "k1?auth=1" "live" (by decide)
      (by decide)).2.2.1 (by decide) rfl rfl⟩

/-- Helper: `readexactly` on a singleton prefix. -/
theorem readExactly_cons1 (a : Nat) (l : List Nat) : readExactly (a :: l) 1 = .ok ([a], l) := by
  simp [readExactly]

/-- Helper: `readexactly` on a 3-byte prefix. -/
theorem readExactly_cons3 (a b c : Nat) (l : List Nat) :
    readExactly (a :: b :: c :: l) 3 = .ok ([a, b, c], l) := by
  simp [readExactly]

/-- Helper: `readexactly` succeeds whenever enough input is present. -/
theorem readExactly_of_le (l : List Nat) (n : Nat) (h : n ≤ l.length) :
    readExactly l n = .ok (l.take n, l.drop n) := by
  unfold readExactly
  rw [if_neg (by omega)]

/-- Helper: looking up the key just set in an association list. -/
theorem alistGet_alistSet_self {κ α : Type} [DecidableEq κ] (m : List (κ × α)) (k : κ) (v : α) :
    alistGet (alistSet m k v) k = some v := by
  induction m with
  | nil => simp [alistSet, alistGet]
  | cons hd tl ih =>
    obtain ⟨k', w⟩ := hd
    by_cases hk : k' = k
    · simp [alistSet, alistGet, hk]
    · simp [alistSet, alistGet, hk, ih]

/-- Claim C3 (failing evaluation): the outbound and inbound chunk
codecs do not round-trip.  For the message with stream id 1, type 8
(audio), timestamp 0 and payload `[0]`, `writeMessage` emits the stream
id as the little-endian bytes `01 00 00 00` while `get_chunk_data`
reads the field big-endian, so the decoded message carries stream id
16777216 instead of 1 (csid, type, timestamp and payload do survive
this particular round trip). -/
theorem c3_roundtrip_fails :
    (get_chunk_data initInState
        (writeMessage initOutState { streamId := 1, type := 8, time := 0, data := [0] }).2).map
      (fun r => r.emitted.map (fun p => (p.cid, p.stream_id, p.type, p.timestamp, p.payload))) =
      .ok (some (3, 16777216, 8, 0, [0])) ∧ (16777216 : Nat) ≠ 1 :=
  ⟨rfl, by decide⟩

/-- Claim C4 (failing evaluation): the 1-byte and 2-byte basic-header
forms decode as the claim says (cs = 5 gives csid 5; cs = 0 with next
byte 5 gives csid 69), but the 3-byte form computes
`(64 + b1 + b2) << 8`: for b1 = 1, b2 = 0 the decoded csid is 16640,
not 64 + 1 + 0·256 = 65. -/
theorem c4_basic_header_decode :
    (get_chunk_data initInState
        ([0x05] ++ [0, 0, 0] ++ [0, 0, 1] ++ [8] ++ [0, 0, 0, 0] ++ [0xAA])).map
      (fun r => r.emitted.map (fun p => p.cid)) = .ok (some 5) ∧
    (get_chunk_data initInState
        ([0x00, 0x05] ++ [0, 0, 0] ++ [0, 0, 1] ++ [8] ++ [0, 0, 0, 0] ++ [0xAA])).map
      (fun r => r.emitted.map (fun p => p.cid)) = .ok (some 69) ∧
    (get_chunk_data initInState
        ([0x01, 0x01, 0x00] ++ [0, 0, 0] ++ [0, 0, 1] ++ [8] ++ [0, 0, 0, 0] ++ [0xAA])).map
      (fun r => r.emitted.map (fun p => p.cid)) = .ok (some 16640) ∧
    (16640 : Nat) ≠ 64 + 1 + 0 * 256 :=
  ⟨rfl, rfl, rfl, by decide⟩

/-- Claim C5 (failing evaluation): the outbound encoder writes the
fmt=0 message-stream-id field little-endian (stream id 1 becomes bytes
`01 00 00 00`), but the inbound decoder reads the same four bytes
big-endian and yields 16777216 instead of 1. -/
theorem c5_stream_id_endianness :
    WHeader.toBytes
        { channel := 3, time := 0, size := 1, type := 8, streamId := 1, delta := 0 }
        headerFULL =
      [0x03, 0, 0, 0, 0, 0, 1, 8, 0x01, 0x00, 0x00, 0x00] ∧
    (get_chunk_data initInState
        ([0x03] ++ [0, 0, 0] ++ [0, 0, 1] ++ [8] ++ [0x01, 0x00, 0x00, 0x00] ++ [0xAB])).map
      (fun r => r.emitted.map (fun p => p.stream_id)) = .ok (some 16777216) ∧
    (16777216 : Nat) ≠ 1 :=
  ⟨rfl, rfl, by decide⟩

/-- Claim C6 (counterexample): a fmt=2 chunk does NOT reset the CSID's
partial payload buffer.  With a cached packet on CSID 3 holding partial
payload `[0xAA]` of a declared 2-byte message, the fmt=2 chunk
`83 00 00 05 BB` completes the message as `[0xAA, 0xBB]` (length, type
and stream id inherited); under the claim the buffer would have been
reset and the message could not contain the old byte `0xAA`. -/
theorem c6_fmt2_no_reset_counterexample :
    (get_chunk_data
        { initInState with
          packets := [(3, { fmt := 0, cid := 3, timestamp := 0, extended_timestamp := 0,
                            payload_length := 2, msg_type_id := 8, msg_stream_id := 1,
                            payload := [0xAA] })] }
        [0x83, 0, 0, 5, 0xBB]).map
      (fun r => (r.emitted.map (fun p => (p.payload, p.timestamp, p.type, p.stream_id)), r.rest)) =
      .ok (some ([0xAA, 0xBB], 5, 8, 1), []) :=
  rfl

set_option maxHeartbeats 1000000 in
/-- Claim C6 as amended: for every fmt=2 chunk received on a CSID with
a cached header, the decoder reads only the 3-byte timestamp field,
inherits `payload_length`, `msg_type_id` and `msg_stream_id` from the
cache, and APPENDS the chunk's payload bytes to any existing partial
payload buffer — the buffer is not reset (only fmt 0/1 reset it). -/
theorem c6_fmt2_inherits_and_appends
    (st : InState) (b0 cs : Nat) (pkt : InPacket) (t1 t2 t3 : Nat) (rest : List Nat)
    (hb0 : b0 &&& 0b00111111 = cs) (hfmt : (b0 &&& 0b11000000) >>> 6 = 2)
    (h0 : cs ≠ 0) (h1 : cs ≠ 1)
    (hpkt : alistGet st.packets cs = some pkt)
    (hty : pkt.msg_type_id ≤ RTMP_TYPE_METADATA)
    (hts : bytesToNatBE [t1, t2, t3] ≠ 0xffffff)
    (hrem : 0 < pkt.payload_length - pkt.payload.length)
    (hlen : min st.chunk_size (pkt.payload_length - pkt.payload.length) ≤ rest.length) :
    (get_chunk_data st (b0 :: t1 :: t2 :: t3 :: rest)).map
      (fun r => (r.rest, r.emitted, alistGet r.state.packets cs)) =
      .ok
        (rest.drop (min st.chunk_size (pkt.payload_length - pkt.payload.length)),
         (if pkt.payload_length ≤
              (pkt.payload ++
                rest.take (min st.chunk_size (pkt.payload_length - pkt.payload.length))).length then
            some { fmt := pkt.fmt, cid := pkt.cid, timestamp := bytesToNatBE [t1, t2, t3],
                   length := pkt.payload_length, type := pkt.msg_type_id,
                   stream_id := pkt.msg_stream_id,
                   payload := pkt.payload ++
                     rest.take (min st.chunk_size (pkt.payload_length - pkt.payload.length)) }
          else none),
         some { pkt with
                timestamp := bytesToNatBE [t1, t2, t3],
                payload :=
                  if pkt.payload_length ≤
                      (pkt.payload ++
                        rest.take (min st.chunk_size (pkt.payload_length - pkt.payload.length))).length then
                    []
                  else pkt.payload ++
                    rest.take (min st.chunk_size (pkt.payload_length - pkt.payload.length)) }) := by
  have hty' : ¬ (22 < pkt.msg_type_id) := by
    simp only [RTMP_TYPE_METADATA] at hty
    omega
  have hpay := readExactly_of_le rest (min st.chunk_size (pkt.payload_length - pkt.payload.length)) hlen
  have e1 : ((2 : Nat) ≤ 2) = True := by simp
  have e2 : ((2 : Nat) ≤ 1) = False := by simp
  have e3 : ((2 : Nat) = 0) = False := by simp
  have e4 : ((2 : Nat) = 1) = False := by simp
  simp only [get_chunk_data, readExactly_cons1, readExactly_cons3, hpay, bind, Except.bind,
    pure, Except.pure, List.headD, hb0, hfmt, h0, h1, hpkt, hty', hts, hrem,
    RTMP_CHUNK_TYPE_0, RTMP_CHUNK_TYPE_1, RTMP_CHUNK_TYPE_2, RTMP_TYPE_METADATA,
    e1, e2, e3, e4, if_false, if_true, ite_false, ite_true, List.length_nil,
    Nat.sub_zero, Nat.add_zero, ge_iff_le, Except.map]
  split_ifs <;> simp [alistGet_alistSet_self]

/-- Witness for the amended C6 at a concrete session: CSID 4 holds the
partial payload `[7]` of a declared 3-byte type-9 message on stream 5;
the fmt=2 chunk `84 00 00 01 08 09` completes it as `[7, 8, 9]` with
timestamp 1 and the inherited length, type and stream id. -/
theorem c6_fmt2_inherits_and_appends_witness :
    (get_chunk_data
        { chunk_size := 128, window_acknowledgement_size := 5000000, inAckSize := 0,
          inLastAck := 0,
          packets := [(4, { fmt := 1, cid := 4, timestamp := 9, extended_timestamp := 0,
                            payload_length := 3, msg_type_id := 9, msg_stream_id := 5,
                            payload := [7] })] }
        (0x84 :: 0 :: 0 :: 1 :: [8, 9])).map
      (fun r => (r.rest, r.emitted, alistGet r.state.packets 4)) =
      .ok
        (([] : List Nat),
         some { fmt := 1, cid := 4, timestamp := 1, length := 3, type := 9,
                stream_id := 5, payload := [7, 8, 9] },
         some { fmt := 1, cid := 4, timestamp := 1, extended_timestamp := 0,
                payload_length := 3, msg_type_id := 9, msg_stream_id := 5,
                payload := ([] : List Nat) }) :=
  c6_fmt2_inherits_and_appends
    { chunk_size := 128, window_acknowledgement_size := 5000000, inAckSize := 0,
      inLastAck := 0,
      packets := [(4, { fmt := 1, cid := 4, timestamp := 9, extended_timestamp := 0,
                        payload_length := 3, msg_type_id := 9, msg_stream_id := 5,
                        payload := [7] })] }
    0x84 4
    { fmt := 1, cid := 4, timestamp := 9, extended_timestamp := 0,
      payload_length := 3, msg_type_id := 9, msg_stream_id := 5, payload := [7] }
    0 0 1 [8, 9]
    (by decide) (by decide) (by decide) (by decide) (by decide) (by decide)
    (by decide) (by decide) (by decide)

/-- Claim C7 (counterexample): a Set Chunk Size of 1 — far below the
claimed lower bound 128 — is accepted and becomes the session's
inbound chunk size; the source checks only the upper bound. -/
theorem c7_no_lower_bound_counterexample :
    handle_chunk_size_message initInState [0, 0, 0, 1] =
      .ok { initInState with chunk_size := 1 } ∧ (1 : Nat) < 128 :=
  ⟨rfl, by decide⟩

/-- Claim C7 as amended: every Set Chunk Size value up to 10,485,760 is
accepted and becomes the session's inbound chunk size — the source has
no lower bound — while any larger value raises
`DisconnectClientException`, closing the session; the handler touches
only the session's own chunk-size field, so nothing reaches the
registry either way. -/
theorem c7_chunk_size_bounds (st : InState) (payload : List Nat) :
    (bytesToNatBE payload ≤ MAX_CHUNK_SIZE →
      handle_chunk_size_message st payload =
        .ok { st with chunk_size := bytesToNatBE payload }) ∧
    (MAX_CHUNK_SIZE < bytesToNatBE payload →
      handle_chunk_size_message st payload = .error ()) := by
  constructor
  · intro h
    unfold handle_chunk_size_message
    rw [if_neg (by omega)]
  · intro h
    unfold handle_chunk_size_message
    rw [if_pos h]

/-- Witness for the amended C7: 100 (below the claimed lower bound of
128) is accepted, while 2^32 (above 10,485,760) closes the session. -/
theorem c7_chunk_size_bounds_witness :
    handle_chunk_size_message initInState [0, 0, 0, 100] =
      .ok { initInState with chunk_size := 100 } ∧
    handle_chunk_size_message initInState [1, 0, 0, 0, 0] = .error () :=
  ⟨(c7_chunk_size_bounds initInState [0, 0, 0, 100]).1 (by decide),
   (c7_chunk_size_bounds initInState [1, 0, 0, 0, 0]).2 (by decide)⟩

set_option maxRecDepth 4000 in
/-- Claim C9 (counterexample): an HEVC sequence header whose SPS has
`chroma_format_idc = 1`, `conformance_window_flag = 1` and raw crop
offsets `conf_win_left_offset = conf_win_right_offset = 2` yields a
reported width of `pic_width_in_luma_samples - 8`, not `- 4`: the
offsets are scaled by the chroma-derived `horiz_mult = 2` before being
subtracted (here pic_width 1920 gives 1912, not 1916). -/
theorem c9_hevc_crop_counterexample :
    (hevc_parse_sps (hevcTestSpsBytes 1920)).chroma_format_idc = 1 ∧
    (hevc_parse_sps (hevcTestSpsBytes 1920)).conformance_window_flag = 1 ∧
    (hevc_parse_sps (hevcTestSpsBytes 1920)).pic_width_in_luma_samples = 1920 ∧
    (read_hevc_specific_config (hevcTestHeader 1920)).width = 1912 ∧
    (read_hevc_specific_config (hevcTestHeader 1920)).width ≠ 1920 - 4 := by
  refine ⟨by decide, by decide, by decide, by decide, by decide⟩

/-- Helper: a left fold whose step ignores the accumulator keeps only
the last element of the list. -/
theorem foldl_const_eq_getLast {α β : Type} (f : α → β) (init : β) (l : List α) :
    l.foldl (fun _ x => f x) init = (l.getLast?).elim init f := by
  induction l generalizing init with
  | nil => rfl
  | cons a t ih =>
    rw [List.foldl_cons, ih]
    cases t <;> simp [List.getLast?]

/-- Helper: the inner NALU loop of `read_hevc_specific_config` is the
fold of the per-SPS info assignment over the collected SPS bodies, and
it leaves the buffer exactly where the collector does. -/
theorem hevcNaluLoop_eq_bodies (gpi gli ty : Nat) :
    ∀ (j : Nat) (p : List Nat) (info : VideoCfgInfo),
      hevcNaluLoop gpi gli ty j p info =
        ((hevcNaluBodies ty j p).2,
         (hevcNaluBodies ty j p).1.foldl (fun _ sps => hevcInfoOfSps gpi gli sps) info) := by
  intro j
  induction j with
  | zero => intro p info; rfl
  | succ j ih =>
    intro p info
    simp only [hevcNaluLoop, hevcNaluBodies]
    split_ifs with h1 h2 hty
    · rfl
    · rfl
    · rw [ih]
      simp [List.foldl_append]
    · rw [ih]
      simp

/-- Helper: the outer array loop is the fold of the per-SPS info
assignment over all collected SPS bodies. -/
theorem hevcArrayLoop_eq_bodies (gpi gli : Nat) :
    ∀ (count : Nat) (p : List Nat) (info : VideoCfgInfo),
      hevcArrayLoop gpi gli count p info =
        (hevcArrayBodies count p).foldl (fun _ sps => hevcInfoOfSps gpi gli sps) info := by
  intro count
  induction count with
  | zero => intro p info; rfl
  | succ i ih =>
    intro p info
    simp only [hevcArrayLoop, hevcArrayBodies]
    split_ifs with h1
    · rfl
    · rw [hevcNaluLoop_eq_bodies, ih, List.foldl_append]

/-- Helper: for every sequence-header payload, the width reported by
`read_hevc_specific_config` is determined by the LAST SPS NALU body of
the header (0 when there is none): `pic_width_in_luma_samples` minus
the sum of the stored (already `horiz_mult`-scaled) crop offsets. -/
theorem read_hevc_width_eq_last_sps (hdr : List Nat) :
    (read_hevc_specific_config hdr).width =
      ((hevcSpsNALUs hdr).getLast?).elim 0
        (fun sps =>
          ((hevc_parse_sps sps).pic_width_in_luma_samples : Int) -
            ((hevc_parse_sps sps).conf_win_left_offset +
              (hevc_parse_sps sps).conf_win_right_offset)) := by
  unfold read_hevc_specific_config hevcSpsNALUs
  dsimp only
  split_ifs with h1 h2
  · rfl
  · rfl
  · rw [hevcArrayLoop_eq_bodies, foldl_const_eq_getLast]
    cases (hevcArrayBodies ((hdr.drop 5).getD 22 0) ((hdr.drop 5).drop 23)).getLast? <;>
      simp [hevcInfoOfSps]

/-- Claim C9 as amended, for EVERY HEVC sequence header: if the SPS the
parser takes its output from — the last type-33 NALU body of the walk,
characterized by `hevcSpsNALUs` — parses with `chroma_format_idc = 1`,
`conformance_window_flag = 1` and stored crop offsets
left = right = 2 * 2 (the raw syntax elements 2 and 2 scaled by
`horiz_mult = 1 + (chroma_idc < 3) = 2`), then the reported width is
`pic_width_in_luma_samples` minus 8, not minus 4. -/
theorem c9_hevc_crop_amended (hdr sps : List Nat)
    (hlast : (hevcSpsNALUs hdr).getLast? = some sps)
    (hchroma : (hevc_parse_sps sps).chroma_format_idc = 1)
    (hconf : (hevc_parse_sps sps).conformance_window_flag = 1)
    (hleft : (hevc_parse_sps sps).conf_win_left_offset = 2 * 2)
    (hright : (hevc_parse_sps sps).conf_win_right_offset = 2 * 2) :
    (read_hevc_specific_config hdr).width =
      ((hevc_parse_sps sps).pic_width_in_luma_samples : Int) - 8 := by
  rw [read_hevc_width_eq_last_sps, hlast]
  simp [hleft, hright]

set_option maxRecDepth 4000 in
/-- Witness for the amended C9 applied at a 1280-wide test header: the
hypotheses hold by evaluation (the header's single SPS parses with
chroma 1, conformance window on, stored offsets 4 and 4), and the
reported width evaluates to 1280 − 8 = 1272. -/
theorem c9_hevc_crop_amended_witness :
    (read_hevc_specific_config (hevcTestHeader 1280)).width =
      ((hevc_parse_sps (hevcTestSpsBytes 1280)).pic_width_in_luma_samples : Int) - 8 ∧
    (hevc_parse_sps (hevcTestSpsBytes 1280)).pic_width_in_luma_samples = 1280 ∧
    (read_hevc_specific_config (hevcTestHeader 1280)).width = 1272 :=
  ⟨c9_hevc_crop_amended (hevcTestHeader 1280) (hevcTestSpsBytes 1280)
      (by decide) (by decide) (by decide) (by decide) (by decide),
   by decide, by decide⟩

/-- Claim C8 (failing evaluation): the AV1 codec-config parser raises
`KeyError` on any sequence header whose `decoder_model_info_present`
flag is 0 — the per-operating-point `initial_display_delay` dictionary
entry is read before ever being assigned.  Evaluated here at a 28-byte
all-zero sequence header (5-byte FLV prefix plus a minimal 23-byte
record), an input every AV1 sequence start with that flag clear hits;
the unhandled exception makes `get_chunk_data` close the session. -/
theorem c8_av1_parser_raises_keyerror :
    read_av1_specific_config (List.replicate 28 0) = .error "KeyError" := rfl

/-- Witness for C10 at the standard AAC config `0xAF 0x00 0x12 0x10`
(object type 2, sampling index 4): `audioChannels` ends up holding
44100 even though the parsed channel count is 2. -/
theorem c10_aac_channels_gets_sample_rate_witness :
    handle_audio_data initAudioState [0xAF, 0x00, 0x12, 0x10] =
      .ok { (if initAudioState.audioCodec = 0 then
               { initAudioState with
                 audioCodec := 10,
                 audioCodecName := AUDIO_CODEC_NAME.getD 10 "",
                 audioSampleRate := AUDIO_SOUND_RATE.getD ((0xAF >>> 2) &&& 0x03) 0,
                 audioChannels := (0xAF &&& 0x01) + 1 }
             else initAudioState) with
            isFirstAudioReceived := true,
            aacSequenceHeader := some [0xAF, 0x00, 0x12, 0x10],
            audioProfileName :=
              get_aac_profile_name (read_aac_specific_config [0xAF, 0x00, 0x12, 0x10]),
            audioSampleRate := (read_aac_specific_config [0xAF, 0x00, 0x12, 0x10]).sample_rate,
            audioChannels := (read_aac_specific_config [0xAF, 0x00, 0x12, 0x10]).sample_rate } ∧
    (read_aac_specific_config [0xAF, 0x00, 0x12, 0x10]).sample_rate = 44100 ∧
    (read_aac_specific_config [0xAF, 0x00, 0x12, 0x10]).channels = some 2 :=
  ⟨c10_aac_channels_gets_sample_rate initAudioState [0xAF, 0x00, 0x12, 0x10] 0xAF
      (by decide) (by decide) (by decide),
   by decide, by decide⟩
